import Mathlib

/-!
# Verification of the BugX v1.4 analysis pipeline and related helpers

Shallow embedding of the pattern-recognition / workflow-orchestration engine
("BugX") of the repository, together with the database initialization guard,
the `getUser` query helper and the behavioral parity tester.  Pure functions
of the source are translated as Lean functions; the mutable module-level
state (metrics sessions, team-knowledge list, initialization guard) is made
explicit by state passing; `try`/`catch` becomes `Except`; JavaScript
numbers become `ℚ` (with `Math.round`/`Math.floor` made explicit).
External collaborators that can throw (the pattern engine, context analysis,
the implementation engine, the database) are modelled as `Except`-valued
oracles the orchestrator consumes, so theorems quantify over every possible
collaborator behavior.
-/

/-- JavaScript `Math.round` on a nonnegative-or-not rational:
`Math.round(x) = ⌊x + 1/2⌋` (halves round up). -/
def jsRound (q : ℚ) : ℤ := ⌊q + 1/2⌋

/-- The two-decimal rounding `Math.round(x * 100) / 100` used for minutes. -/
def round2 (q : ℚ) : ℚ := (jsRound (q * 100) : ℚ) / 100

/-- JavaScript `String.prototype.includes`: substring containment. -/
def strContains (s sub : String) : Bool := decide (List.IsInfix sub.toList s.toList)

/-- JavaScript `String.prototype.toLowerCase` (character-wise, as
`String.toLower`, but stated over the character list so it evaluates). -/
def toLowerStr (s : String) : String := String.mk (s.data.map Char.toLower)

/-! ## Quality score (`BugXIntegrationSystem.calculateQualityScore`) -/

/-- The argument record of `calculateQualityScore` (source keeps
`contextComplexity` a plain string). -/
structure QualityFactors where
  appliedTemplate : Bool
  preventionMeasures : ℕ
  patternMatchConfidence : ℚ
  contextComplexity : String

/-- Source `BugXIntegrationSystem.calculateQualityScore`: base 50, +20 for an applied
template, `+ min(20, preventionMeasures * 5)`, `+ min(15, confidence * 0.15)`,
complexity bonus, then `Math.min(100, Math.round(score))`. -/
def calculateQualityScore (factors : QualityFactors) : ℤ :=
  let score : ℚ :=
    50 + (if factors.appliedTemplate then 20 else 0)
      + min 20 ((factors.preventionMeasures : ℚ) * 5)
      + min 15 (factors.patternMatchConfidence * 0.15)
      + (if factors.contextComplexity = "simple" then 10
         else if factors.contextComplexity = "moderate" then 5 else 0)
  min 100 (jsRound score)

/-- The quality score exactly as §4.6 of the specification words it: a plain
weighted sum (base 50, template bonus, capped prevention and confidence
contributions, complexity bonus) capped at 100 — with no rounding step. -/
def specQualityScore (factors : QualityFactors) : ℚ :=
  min 100
    (50 + (if factors.appliedTemplate then 20 else 0)
      + min 20 (5 * (factors.preventionMeasures : ℚ))
      + min 15 (0.15 * factors.patternMatchConfidence)
      + (if factors.contextComplexity = "simple" then 10
         else if factors.contextComplexity = "moderate" then 5 else 0))

/-- The specification's weighted sum, amended with the rounding the source
applies: round the weighted sum to the nearest integer (halves up), then cap
at 100. -/
def specQualityScoreRounded (factors : QualityFactors) : ℤ :=
  min 100
    (jsRound
      (50 + (if factors.appliedTemplate then 20 else 0)
        + min 20 (5 * (factors.preventionMeasures : ℚ))
        + min 15 (0.15 * factors.patternMatchConfidence)
        + (if factors.contextComplexity = "simple" then 10
           else if factors.contextComplexity = "moderate" then 5 else 0)))

/-- C1 counterexample input: no template, no prevention measures, pattern
confidence 1, complex context. -/
def qfC1 : QualityFactors :=
  { appliedTemplate := false, preventionMeasures := 0,
    patternMatchConfidence := 1, contextComplexity := "complex" }

/-! ## Pattern data model (`pattern-recognition` / `core-system` types) -/

inductive Severity where
  | low
  | medium
  | high
  | critical
  deriving DecidableEq

structure PatternSignature where
  name : String
  category : String
  keywords : List String
  contextClues : List String
  recommendation : String
  deriving DecidableEq

structure PatternMatch where
  signature : PatternSignature
  confidence : ℚ
  matchedKeywords : List String
  matchedContextClues : List String
  deriving DecidableEq

structure AntiPattern where
  name : String
  severity : Severity
  impact : String
  solution : String
  deriving DecidableEq

structure PatternTemplate where
  name : String
  errorType : String
  steps : List String
  preventionMeasures : List String
  deriving DecidableEq

/-! ## Pattern Recognition Engine (`PatternRecognitionEngine.analyzeError`)

Modelled from the spec: `pattern-recognition.ts` is not among the sources.
Per §4.1 of the specification, confidence sums weighted keyword hits
(searched in message, stack trace and code context) and context-clue hits
(searched in code context and file name), normalized to 0–100; matches are
returned highest confidence first with ties broken by catalog order, and the
engine returns the empty list (never throws) when nothing matches.  We weight
a matched keyword 20 and a matched context clue 10 and normalize by capping
at 100. -/

def matchedKeywordsOf (sig : PatternSignature)
    (message stackTrace codeContext : String) : List String :=
  sig.keywords.filter fun kw =>
    strContains message kw || strContains stackTrace kw || strContains codeContext kw

def matchedCluesOf (sig : PatternSignature) (codeContext fileName : String) : List String :=
  sig.contextClues.filter fun cl => strContains codeContext cl || strContains fileName cl

/-- Ordering relation "higher or equal confidence first". -/
def confGE (a b : PatternMatch) : Prop := b.confidence ≤ a.confidence

instance : DecidableRel confGE := fun a b =>
  inferInstanceAs (Decidable (b.confidence ≤ a.confidence))

instance : IsTotal PatternMatch confGE :=
  ⟨fun a b => le_total b.confidence a.confidence⟩

instance : IsTrans PatternMatch confGE :=
  ⟨fun _ _ _ hab hbc => le_trans hbc hab⟩

/-- Modelled from the spec (§4.1): the confidence-scored match one signature
produces, `none` when nothing in it hits. -/
def scoreSignature (sig : PatternSignature)
    (message stackTrace codeContext fileName : String) : Option PatternMatch :=
  if (matchedKeywordsOf sig message stackTrace codeContext).isEmpty
      && (matchedCluesOf sig codeContext fileName).isEmpty then none
  else some
    { signature := sig,
      confidence := min 100
        ((20 * (matchedKeywordsOf sig message stackTrace codeContext).length
          + 10 * (matchedCluesOf sig codeContext fileName).length : ℕ) : ℚ),
      matchedKeywords := matchedKeywordsOf sig message stackTrace codeContext,
      matchedContextClues := matchedCluesOf sig codeContext fileName }

/-- Modelled from the spec (§4.1): score every catalog signature against the
four inputs, keep those with at least one hit, and sort by non-increasing
confidence (stable, so catalog order breaks ties). -/
def analyzeError (catalog : List PatternSignature)
    (message stackTrace codeContext fileName : String) : List PatternMatch :=
  (catalog.filterMap fun sig =>
    scoreSignature sig message stackTrace codeContext fileName).insertionSort confGE

/-! ## Core Template System (`BugXCoreSystem.getTemplate`)

Modelled from the spec: `core-system.ts` is not among the sources.  Per §4.3
and §6, `getTemplate(errorType)` returns the registered `PatternTemplate` for
the key and fails with a NotFound condition when the key has no registered
template; `PATTERN_TEMPLATES` holds five templates keyed by error type
(matching the error types `inferErrorType` can produce, `generic_error`
deliberately unregistered). -/

inductive TemplateError where
  | notFound (errorType : String)
  deriving DecidableEq

def PATTERN_TEMPLATES : List (String × PatternTemplate) :=
  [("hydration_error",
    { name := "hydration-mismatch-fix", errorType := "hydration_error",
      steps := ["Identify non-deterministic values in render",
                "Move dynamic values into client-side effects"],
      preventionMeasures := ["Use static initial values"] }),
   ("scope_error",
    { name := "scope-tdz-fix", errorType := "scope_error",
      steps := ["Locate use-before-declaration", "Reorder declarations"],
      preventionMeasures := ["Declare before use"] }),
   ("null_reference",
    { name := "null-reference-fix", errorType := "null_reference",
      steps := ["Trace the null value", "Add guards"],
      preventionMeasures := ["Use optional chaining"] }),
   ("api_integration",
    { name := "api-integration-fix", errorType := "api_integration",
      steps := ["Inspect request and response", "Fix headers or CORS config"],
      preventionMeasures := ["Validate API contracts"] }),
   ("validation_error",
    { name := "validation-fix", errorType := "validation_error",
      steps := ["Identify failing field", "Correct the schema or the input"],
      preventionMeasures := ["Validate at the boundary"] })]

def getTemplate (errorType : String) : Except TemplateError PatternTemplate :=
  match PATTERN_TEMPLATES.lookup errorType with
  | some t => Except.ok t
  | none => Except.error (TemplateError.notFound errorType)

/-! ## Team knowledge store (`shareWithTeam`, `recordTeamKnowledgeFeedback`)

The process-wide `teamKnowledge` array of `BugXIntegrationSystem` becomes an
explicit list; the `Date.now()`-based fresh id and timestamp become
parameters. -/

structure TeamFeedback where
  helpful : ℕ
  notHelpful : ℕ
  comments : List String
  deriving DecidableEq

structure TeamKnowledgeEntry where
  id : String
  title : String
  errorSignature : String
  solution : String
  prevention : String
  sharedBy : String
  sharedAt : ℚ
  usageCount : ℕ
  effectiveness : ℤ
  teamFeedback : TeamFeedback
  deriving DecidableEq

structure ShareRequest where
  title : String
  errorSignature : String
  solution : String
  prevention : String
  sharedBy : String
  deriving DecidableEq

/-- Source `BugXIntegrationSystem.shareWithTeam`: append a fresh entry, starting at
effectiveness 85 with empty feedback. -/
def shareWithTeam (teamKnowledge : List TeamKnowledgeEntry)
    (freshId : String) (now : ℚ) (entry : ShareRequest) : List TeamKnowledgeEntry :=
  teamKnowledge ++
    [{ id := freshId, title := entry.title, errorSignature := entry.errorSignature,
       solution := entry.solution, prevention := entry.prevention,
       sharedBy := entry.sharedBy, sharedAt := now, usageCount := 0,
       effectiveness := 85,
       teamFeedback := { helpful := 0, notHelpful := 0, comments := [] } }]

/-- The mutation `recordTeamKnowledgeFeedback` performs on the entry it
found: bump the tally, clamp effectiveness (`min 100 (e+2)` when helpful,
`max 0 (e-5)` otherwise), and append the optional comment. -/
def applyFeedback (e : TeamKnowledgeEntry) (helpful : Bool)
    (comment : Option String) : TeamKnowledgeEntry :=
  let e1 :=
    if helpful then
      { e with
        teamFeedback := { e.teamFeedback with helpful := e.teamFeedback.helpful + 1 },
        effectiveness := min 100 (e.effectiveness + 2) }
    else
      { e with
        teamFeedback := { e.teamFeedback with notHelpful := e.teamFeedback.notHelpful + 1 },
        effectiveness := max 0 (e.effectiveness - 5) }
  match comment with
  | some c =>
      { e1 with
        teamFeedback := { e1.teamFeedback with comments := e1.teamFeedback.comments ++ [c] } }
  | none => e1

/-- Source `BugXIntegrationSystem.recordTeamKnowledgeFeedback`: find the first entry
with the given id (no-op when absent) and apply the feedback mutation. -/
def recordTeamKnowledgeFeedback :
    List TeamKnowledgeEntry → String → Bool → Option String → List TeamKnowledgeEntry
  | [], _, _, _ => []
  | e :: rest, entryId, helpful, comment =>
    if e.id = entryId then applyFeedback e helpful comment :: rest
    else e :: recordTeamKnowledgeFeedback rest entryId helpful comment

/-- The two operations callers can perform on the team-knowledge list. -/
inductive TeamOp where
  | share (freshId : String) (now : ℚ) (entry : ShareRequest)
  | feedback (entryId : String) (helpful : Bool) (comment : Option String)

def applyTeamOp (tk : List TeamKnowledgeEntry) : TeamOp → List TeamKnowledgeEntry
  | TeamOp.share freshId now entry => shareWithTeam tk freshId now entry
  | TeamOp.feedback entryId helpful comment =>
      recordTeamKnowledgeFeedback tk entryId helpful comment

/-- Every sequence of share/feedback operations, starting from the empty
process-start list. -/
def runTeamOps (ops : List TeamOp) : List TeamKnowledgeEntry :=
  ops.foldl applyTeamOp []

/-! ## Behavioral parity tester (`BehavioralParityTester`) -/

structure ParityTestResult where
  testId : String
  passed : Bool
  serverOutput : String
  clientOutput : String
  mismatchDetails : Option (List String)
  recommendation : String

/-- Source `BehavioralParityTester.testRandomValueConsistency`: the two
`Math.random()` draws become parameters; the result is hard-coded to
`passed: false` regardless of them. -/
def testRandomValueConsistency (serverRandom clientRandom : ℚ) : ParityTestResult :=
  let serverValue : ℤ := ⌊serverRandom * 150⌋ + 50
  let clientValue : ℤ := ⌊clientRandom * 150⌋ + 50
  { testId := "RANDOM_VALUE_CONSISTENCY_001",
    passed := false,
    serverOutput := "Active Users: " ++ toString serverValue,
    clientOutput := "Active Users: " ++ toString clientValue,
    mismatchDetails := some ["Random values generate different results on server vs client"],
    recommendation := "Use static initial values with client-side state management" }

/-! ## Metrics Collector state

Modelled from the spec: `metrics-system.ts` is not among the sources.  Per
§4.5, `startSession` opens a session record, `completeSession` finalizes the
record with the given id (silently doing nothing on an unknown id) and
`addDocumentation` appends to a documentation log; all state is
process-lifetime. -/

structure SessionRecord where
  id : String
  completed : Bool
  success : Bool
  deriving DecidableEq

structure MetricsState where
  sessions : List SessionRecord
  docCount : ℕ
  deriving DecidableEq

def startSession (st : MetricsState) (sessionId : String) : MetricsState :=
  { st with sessions :=
      st.sessions ++ [{ id := sessionId, completed := false, success := false }] }

def completeSession (st : MetricsState) (sessionId : String) (success : Bool) :
    MetricsState :=
  { st with sessions := st.sessions.map fun r =>
      if r.id = sessionId then { r with completed := true, success := success } else r }

def addDocumentation (st : MetricsState) : MetricsState :=
  { st with docCount := st.docCount + 1 }

/-! ## Context analysis result and orchestrator helpers (`integration.ts`) -/

/-- Result record of `ContextAnalysisEngine.analyzeContext`; the source keeps
`complexity` a plain string (`'simple' | 'moderate' | 'complex'`). -/
structure ContextAnalysisResult where
  complexity : String
  estimatedTime : ℚ
  recommendedApproach : String
  errorCategory : String
  deriving DecidableEq

/-- Source `BugXIntegrationSystem.inferErrorType`: pattern-name analysis when the
best match is above 70% confidence (falling through when no branch hits),
otherwise keyword analysis of the error message. -/
def inferErrorType (errorMessage : String) (patternMatches : List PatternMatch) :
    String :=
  let fromPattern : Option String :=
    match patternMatches with
    | [] => none
    | m :: _ =>
      if 70 < m.confidence then
        let patternName := toLowerStr m.signature.name
        if strContains patternName "hydration" then some "hydration_error"
        else if strContains patternName "scope" || strContains patternName "temporal" then
          some "scope_error"
        else if strContains patternName "null" || strContains patternName "undefined" then
          some "null_reference"
        else if strContains patternName "api" || strContains patternName "cors" then
          some "api_integration"
        else none
      else none
  match fromPattern with
  | some t => t
  | none =>
    let message := toLowerStr errorMessage
    if strContains message "hydration" then "hydration_error"
    else if strContains message "cannot access" || strContains message "before initialization" then
      "scope_error"
    else if strContains message "null" || strContains message "undefined" then
      "null_reference"
    else if strContains message "cors" || strContains message "fetch" then
      "api_integration"
    else if strContains message "validation" || strContains message "invalid" then
      "validation_error"
    else "generic_error"

/-- Source `BugXIntegrationSystem.calculateEfficiency`. -/
def calculateEfficiency (actualTime targetTime : ℚ) : ℤ :=
  if actualTime ≤ targetTime then 100
  else max 0 (jsRound (targetTime / actualTime * 100))

/-- Source `BugXIntegrationSystem.calculateTeamImpact`. -/
def calculateTeamImpact (documentationCreated : Bool) (preventionCount : ℕ) : ℤ :=
  min 100 ((if documentationCreated then 50 else 0) + min 50 ((preventionCount : ℤ) * 10))

/-- Source `BugXIntegrationSystem.generateRecommendations`. -/
def generateRecommendations (timeSpent targetTime : ℚ) (qualityScore : ℤ)
    (patternMatches : List PatternMatch) (antiPatterns : List AntiPattern)
    (appliedTemplate : Option PatternTemplate) : List String :=
  let recommendations : List String :=
    (if targetTime < timeSpent then
      ["Consider optimizing pattern recognition - exceeded target time by "
        ++ toString (round2 (timeSpent - targetTime)) ++ " minutes"]
     else [])
    ++ (if qualityScore < 80 then
      ["Improve prevention measures and documentation quality"] else [])
    ++ (if patternMatches.length = 0 then
      ["Add custom pattern for this error type to improve future recognition"] else [])
    ++ (let criticalCount :=
          (antiPatterns.filter fun ap => decide (ap.severity = Severity.critical)).length
        if 0 < antiPatterns.length ∧ 0 < criticalCount then
          ["Address " ++ toString criticalCount ++ " critical anti-patterns immediately"]
        else [])
    ++ (if appliedTemplate.isNone then
      ["Create specific template for this error pattern to improve efficiency"] else [])
  if 0 < recommendations.length then recommendations
  else ["Excellent work! Continue with current practices."]

/-- Source `BugXIntegrationSystem.generateNextSteps`. -/
def generateNextSteps (preventionMeasures : List String)
    (antiPatterns : List AntiPattern) (contextAnalysis : ContextAnalysisResult) :
    List String :=
  (if 0 < preventionMeasures.length then
    ["Implement all prevention measures to avoid recurrence"] else [])
  ++ (if 0 < antiPatterns.length then
    ["Schedule code review to address detected anti-patterns"] else [])
  ++ (if contextAnalysis.complexity = "complex" then
    ["Consider refactoring for better maintainability"] else [])
  ++ ["Test thoroughly to ensure fix works across all scenarios",
      "Monitor for similar issues in related components"]

/-- Source `BugXIntegrationSystem.generateErrorSignature`. -/
def generateErrorSignature (errorDetails_message errorDetails_fileName errorDetails_component : String) : String :=
  errorDetails_message ++ ":" ++ errorDetails_fileName ++ ":" ++ errorDetails_component

/-! ## Workflow configuration and result types (`integration.ts`) -/

structure TeamIntegrationConfig where
  notifyOnCritical : Bool
  sharePatterns : Bool
  requireReviews : Bool
  deriving DecidableEq

structure BugXWorkflowConfig where
  timeTarget : ℚ
  aiAssisted : Bool
  metricsEnabled : Bool
  preventionRequired : Bool
  documentationRequired : Bool
  patternRecognitionEnabled : Bool
  teamIntegration : TeamIntegrationConfig
  deriving DecidableEq

def DEFAULT_CONFIG : BugXWorkflowConfig :=
  { timeTarget := 9/2, aiAssisted := true, metricsEnabled := true,
    preventionRequired := true, documentationRequired := true,
    patternRecognitionEnabled := true,
    teamIntegration :=
      { notifyOnCritical := true, sharePatterns := true, requireReviews := false } }

structure ErrorDetails where
  message : String
  stackTrace : String
  codeContext : String
  fileName : String
  component : String
  deriving DecidableEq

structure WorkflowMetrics where
  efficiency : ℤ
  qualityScore : ℤ
  teamImpact : ℤ
  deriving DecidableEq

structure BugXWorkflowResult where
  sessionId : String
  success : Bool
  timeSpent : ℚ
  approach : String
  patternMatches : List PatternMatch
  antiPatterns : List AntiPattern
  appliedTemplate : Option PatternTemplate
  preventionMeasures : List String
  documentationCreated : Bool
  metrics : WorkflowMetrics
  recommendations : List String
  nextSteps : List String
  deriving DecidableEq

/-- Observable outcome of one `runCompleteWorkflow` call: the returned result
plus the final shared state and whether the team-notification step ran. -/
structure WorkflowOutcome where
  result : BugXWorkflowResult
  metricsState : MetricsState
  teamKnowledge : List TeamKnowledgeEntry
  notifiedTeam : Bool
  deriving DecidableEq

/-- The collaborator calls the orchestrator performs inside its `try` block,
as `Except`-valued oracles: theorems quantify over every possible behavior
(including throwing).  `getTemplateO` abstracts `BugXCoreSystem.getTemplate`
(instantiated with the spec-modelled `getTemplate` in the theorems);
`promptsO` abstracts `AIWorkflowPrompts.generateWorkflowPrompts` and `implO`
abstracts `ImplementationEngine.generateImplementation` (steps, prevention
measures). -/
structure WorkflowOracles where
  analyzeErrorO : Except String (List PatternMatch)
  detectAntiPatternsO : Except String (List AntiPattern)
  contextO : Except String ContextAnalysisResult
  getTemplateO : String → Except TemplateError PatternTemplate
  promptsO : Except String ℕ
  implO : Except String (List String × List String)

/-- Phases 2–10 of `BugXIntegrationSystem.runCompleteWorkflow` — the body of
its top-level `try`.  `staticCfg` is the class-level `this.config` (used for
the `metricsEnabled` checks, as in the source), `wfCfg` the merged
`workflowConfig`; `Date.now()` values and the fresh team-entry id are
parameters. -/
def workflowBody (staticCfg wfCfg : BugXWorkflowConfig) (o : WorkflowOracles)
    (developer : String) (errorDetails : ErrorDetails) (sessionId freshTeamId : String)
    (startTime endTime : ℚ) (st : MetricsState) (tk : List TeamKnowledgeEntry) :
    Except String WorkflowOutcome :=
  Except.bind (if wfCfg.patternRecognitionEnabled then o.analyzeErrorO else Except.ok [])
    fun patternMatches =>
  Except.bind (if wfCfg.patternRecognitionEnabled then o.detectAntiPatternsO else Except.ok [])
    fun antiPatterns =>
  Except.bind o.contextO fun contextAnalysis =>
  let errorType := inferErrorType errorDetails.message patternMatches
  let appliedTemplate : Option PatternTemplate :=
    match o.getTemplateO errorType with
    | Except.ok t => some t
    | Except.error _ => none
  Except.bind
    (if wfCfg.aiAssisted then Except.bind o.promptsO fun _ => o.implO
     else Except.ok ([], []))
    fun implementation =>
  let implementationSteps := implementation.1
  let preventionMeasures := implementation.2
  let qualityScore := calculateQualityScore
    { appliedTemplate := appliedTemplate.isSome,
      preventionMeasures := preventionMeasures.length,
      patternMatchConfidence := ((patternMatches.head?).map PatternMatch.confidence).getD 0,
      contextComplexity := contextAnalysis.complexity }
  let documentationCreated := wfCfg.documentationRequired
  let st1 :=
    if wfCfg.documentationRequired && staticCfg.metricsEnabled then addDocumentation st
    else st
  let tk1 :=
    if wfCfg.documentationRequired && wfCfg.teamIntegration.sharePatterns then
      shareWithTeam tk freshTeamId endTime
        { title := errorType ++ " Resolution",
          errorSignature :=
            generateErrorSignature errorDetails.message errorDetails.fileName
              errorDetails.component,
          solution := String.intercalate "; " implementationSteps,
          prevention := String.intercalate "; " preventionMeasures,
          sharedBy := developer }
    else tk
  let notified := wfCfg.teamIntegration.notifyOnCritical
      && antiPatterns.any fun ap => decide (ap.severity = Severity.critical)
  let timeSpent := (endTime - startTime) / 60000
  let approach := if timeSpent ≤ wfCfg.timeTarget then "bugx_v14" else "full_bugx"
  let st2 := if staticCfg.metricsEnabled then completeSession st1 sessionId true else st1
  let recommendations := generateRecommendations timeSpent wfCfg.timeTarget qualityScore
    patternMatches antiPatterns appliedTemplate
  let nextSteps := generateNextSteps preventionMeasures antiPatterns contextAnalysis
  Except.ok
    { result :=
      { sessionId := sessionId, success := true, timeSpent := round2 timeSpent,
        approach := approach, patternMatches := patternMatches,
        antiPatterns := antiPatterns, appliedTemplate := appliedTemplate,
        preventionMeasures := preventionMeasures,
        documentationCreated := documentationCreated,
        metrics :=
          { efficiency := calculateEfficiency timeSpent wfCfg.timeTarget,
            qualityScore := qualityScore,
            teamImpact := calculateTeamImpact documentationCreated preventionMeasures.length },
        recommendations := recommendations, nextSteps := nextSteps },
      metricsState := st2, teamKnowledge := tk1, notifiedTeam := notified }

/-- Source `BugXIntegrationSystem.runCompleteWorkflow`: open the session (phase 1),
run the `try` body, and on any phase exception return the structured failure
result with zero-valued metrics, mark the session failed, and swallow the
exception. -/
def runCompleteWorkflow (staticCfg wfCfg : BugXWorkflowConfig) (o : WorkflowOracles)
    (developer : String) (errorDetails : ErrorDetails) (sessionId freshTeamId : String)
    (startTime endTime : ℚ) (st : MetricsState) (tk : List TeamKnowledgeEntry) :
    WorkflowOutcome :=
  let st1 := if staticCfg.metricsEnabled then startSession st sessionId else st
  match workflowBody staticCfg wfCfg o developer errorDetails sessionId freshTeamId
      startTime endTime st1 tk with
  | Except.ok outcome => outcome
  | Except.error _ =>
    { result :=
      { sessionId := sessionId, success := false,
        timeSpent := round2 ((endTime - startTime) / 60000),
        approach := "bugx_v14", patternMatches := [], antiPatterns := [],
        appliedTemplate := none, preventionMeasures := [],
        documentationCreated := false,
        metrics := { efficiency := 0, qualityScore := 0, teamImpact := 0 },
        recommendations := ["Retry with manual debugging approach",
                            "Check system configuration"],
        nextSteps := ["Review error logs", "Validate input parameters"] },
      metricsState := if staticCfg.metricsEnabled then completeSession st1 sessionId false else st1,
      teamKnowledge := tk, notifiedTeam := false }

/-! ## Database initialization guard (`init.ts`, `ensureDatabaseInitialized`) -/

/-- The two module-level variables of `init.ts`: `isInitialized` and the
shared pending promise (an attempt id when one is in flight). -/
structure InitState where
  isInitialized : Bool
  initializationPromise : Option ℕ
  deriving DecidableEq

/-- What a single call to `ensureDatabaseInitialized` does before awaiting. -/
inductive InitCallResult where
  | returnsImmediately
  | awaitsAttempt (id : ℕ)
  | startsAttempt (id : ℕ)
  deriving DecidableEq

/-- Source `ensureDatabaseInitialized`: return immediately when initialized; await
the shared in-flight attempt when one exists; otherwise start a fresh attempt
and store it in the guard. -/
def ensureDatabaseInitialized (s : InitState) (freshId : ℕ) :
    InitCallResult × InitState :=
  if s.isInitialized then (InitCallResult.returnsImmediately, s)
  else
    match s.initializationPromise with
    | some id => (InitCallResult.awaitsAttempt id, s)
    | none => (InitCallResult.startsAttempt freshId,
               { s with initializationPromise := some freshId })

/-- Completion of the in-flight attempt: success sets `isInitialized` (the
promise is left in place, as in the source); failure resets the promise to
`null` so a later caller can retry. -/
def completeAttempt (s : InitState) (success : Bool) : InitState :=
  if success then { s with isInitialized := true }
  else { s with initializationPromise := none }

inductive InitEvent where
  | call (freshId : ℕ)
  | complete (success : Bool)

def initStep (s : InitState) : InitEvent → InitState
  | InitEvent.call freshId => (ensureDatabaseInitialized s freshId).2
  | InitEvent.complete success => completeAttempt s success

/-! ## `getUser` (`queries.ts`) -/

/-- The decoded session payload; `id : Option ℤ` models the
`typeof sessionData.user.id !== 'number'` check (`none` = not a number). -/
structure SessionUser where
  id : Option ℤ
  deriving DecidableEq

structure SessionData where
  user : Option SessionUser
  expires : ℚ
  deriving DecidableEq

structure DbUser where
  id : ℤ
  name : String
  deletedAt : Option ℚ
  deriving DecidableEq

/-- Function `getUser` from `queries.ts`.  `initResult` is the outcome of
`ensureDatabaseInitialized` (its exception is caught and mapped to `null`);
`sessionCookie` the cookie value; `verify` the external `verifyToken`
collaborator (`none` on failed verification); `now` the current time;
`dbOk = false` models the caught query exception; `table` the `users`
relation.  The query keeps rows with the session's user id and
`deletedAt IS NULL`, `LIMIT 1`. -/
def getUser (initResult : Except String Unit) (sessionCookie : Option String)
    (verify : String → Option SessionData) (now : ℚ)
    (dbOk : Bool) (table : List DbUser) : Option DbUser :=
  match initResult with
  | Except.error _ => none
  | Except.ok _ =>
    match sessionCookie with
    | none => none
    | some v =>
      if v = "" then none
      else
        match verify v with
        | none => none
        | some sessionData =>
          match sessionData.user with
          | none => none
          | some su =>
            match su.id with
            | none => none
            | some uid =>
              if sessionData.expires < now then none
              else if dbOk = false then none
              else
                match (table.filter fun r =>
                    decide (r.id = uid) && decide (r.deletedAt = none)).head? with
                | none => none
                | some row => some row

/-! ## Concrete inputs used by the witnesses -/

def sampleSignature : PatternSignature :=
  { name := "Hydration Mismatch", category := "react",
    keywords := ["hydration"], contextClues := ["Math.random()"],
    recommendation := "Use static initial values" }

def sampleCatalog : List PatternSignature := [sampleSignature]

/-- The single match `analyzeError` produces on the sample inputs. -/
def sampleMatch : PatternMatch :=
  { signature := sampleSignature,
    confidence := min 100 ((30 : ℕ) : ℚ),
    matchedKeywords := ["hydration"],
    matchedContextClues := ["Math.random()"] }

def sampleShare : ShareRequest :=
  { title := "hydration_error Resolution", errorSignature := "sig",
    solution := "sol", prevention := "prev", sharedBy := "dev" }

def opsC6 : List TeamOp :=
  [TeamOp.share "entry-1" 0 sampleShare,
   TeamOp.feedback "entry-1" false none]

/-- The entry after sharing and one unhelpful feedback. -/
def entryC6 : TeamKnowledgeEntry :=
  { id := "entry-1", title := "hydration_error Resolution", errorSignature := "sig",
    solution := "sol", prevention := "prev", sharedBy := "dev", sharedAt := 0,
    usageCount := 0, effectiveness := max 0 ((85 : ℤ) - 5),
    teamFeedback := { helpful := 0, notHelpful := 0 + 1, comments := [] } }

def userC10 : DbUser := { id := 1, name := "Alice", deletedAt := none }

def verifyC10 : String → Option SessionData :=
  fun _ => some { user := some { id := some 1 }, expires := 10 }

def ctxSample : ContextAnalysisResult :=
  { complexity := "simple", estimatedTime := 5,
    recommendedApproach := "bugx_v14", errorCategory := "react" }

def sampleErrorDetails : ErrorDetails :=
  { message := "boom", stackTrace := "", codeContext := "",
    fileName := "a.ts", component := "App" }

def emptyMetrics : MetricsState := { sessions := [], docCount := 0 }

/-- Oracles whose pattern-recognition phase throws. -/
def failingOracles : WorkflowOracles :=
  { analyzeErrorO := Except.error "pattern engine crashed",
    detectAntiPatternsO := Except.ok [],
    contextO := Except.ok ctxSample,
    getTemplateO := getTemplate,
    promptsO := Except.ok 0,
    implO := Except.ok ([], []) }

def criticalAntiPattern : AntiPattern :=
  { name := "Math.random in state initializer", severity := Severity.critical,
    impact := "hydration mismatch", solution := "move the draw into an effect" }

/-- Oracles where every phase succeeds and one critical anti-pattern is
detected. -/
def okOracles : WorkflowOracles :=
  { analyzeErrorO := Except.ok [],
    detectAntiPatternsO := Except.ok [criticalAntiPattern],
    contextO := Except.ok ctxSample,
    getTemplateO := getTemplate,
    promptsO := Except.ok 0,
    implO := Except.ok ([], []) }

/-! ## Theorems -/

@[simp] theorem exceptBind_ok {α β ε : Type} (a : α) (f : α → Except ε β) :
    Except.bind (Except.ok a) f = f a := rfl

@[simp] theorem exceptBind_error {α β ε : Type} (e : ε) (f : α → Except ε β) :
    Except.bind (Except.error e) f = (Except.error e : Except ε β) := rfl

/-- C1: the code's score at `qfC1` is `min 100 ⌊50.15 + 0.5⌋ = 50`, while the
spec's unrounded weighted sum is `50.15`: the claim as stated fails. -/
theorem calculateQualityScore_ne_spec :
    (calculateQualityScore qfC1 : ℚ) ≠ specQualityScore qfC1 := by
  have hx : ¬ ("complex" : String) = "simple" := by decide
  have hy : ¬ ("complex" : String) = "moderate" := by decide
  unfold calculateQualityScore specQualityScore qfC1
  norm_num [jsRound, hx, hy]

/-- C1 (amended): for every input the quality score equals the specification's
weighted sum rounded to the nearest integer (halves up) and capped at 100. -/
theorem calculateQualityScore_eq_spec_rounded (f : QualityFactors) :
    calculateQualityScore f = specQualityScoreRounded f := by
  unfold calculateQualityScore specQualityScoreRounded
  ring_nf

/-- C5: holding the template flag, confidence and complexity fixed, the
quality score is monotone non-decreasing in the prevention-measure count, and
for every input it never exceeds 100. -/
theorem calculateQualityScore_mono_and_le_100
    (t : Bool) (conf : ℚ) (cx : String) (p₁ p₂ : ℕ) (h : p₁ ≤ p₂) :
    calculateQualityScore ⟨t, p₁, conf, cx⟩ ≤ calculateQualityScore ⟨t, p₂, conf, cx⟩
      ∧ ∀ f : QualityFactors, calculateQualityScore f ≤ 100 := by
  constructor
  · unfold calculateQualityScore
    refine min_le_min le_rfl (Int.floor_le_floor ?_)
    have h5 : (p₁ : ℚ) * 5 ≤ (p₂ : ℚ) * 5 := by
      have : (p₁ : ℚ) ≤ (p₂ : ℚ) := by exact_mod_cast h
      nlinarith
    have hmin : min 20 ((p₁ : ℚ) * 5) ≤ min 20 ((p₂ : ℚ) * 5) := min_le_min le_rfl h5
    simp only
    linarith
  · intro f
    unfold calculateQualityScore
    exact min_le_left _ _

/-- C5 witness: at template applied, confidence 80, moderate complexity, the
score with 2 prevention measures is at most the score with 4, and the bound
holds at a concrete input. -/
theorem calculateQualityScore_mono_witness :
    calculateQualityScore ⟨true, 2, 80, "moderate"⟩
        ≤ calculateQualityScore ⟨true, 4, 80, "moderate"⟩
      ∧ ∀ f : QualityFactors, calculateQualityScore f ≤ 100 :=
  calculateQualityScore_mono_and_le_100 true 80 "moderate" 2 4 (by norm_num)

/-- C8: `analyzeError` (modelled from the spec) returns matches sorted by
non-increasing confidence, every confidence lies in `[0, 100]`, and when no
catalog signature matches anything it returns the empty list (it is a total
function — it never throws). -/
theorem analyzeError_sorted_bounded (catalog : List PatternSignature)
    (message stackTrace codeContext fileName : String) :
    List.Sorted confGE (analyzeError catalog message stackTrace codeContext fileName)
      ∧ (∀ m ∈ analyzeError catalog message stackTrace codeContext fileName,
          0 ≤ m.confidence ∧ m.confidence ≤ 100)
      ∧ ((∀ sig ∈ catalog, matchedKeywordsOf sig message stackTrace codeContext = []
            ∧ matchedCluesOf sig codeContext fileName = []) →
          analyzeError catalog message stackTrace codeContext fileName = []) := by
  refine ⟨List.sorted_insertionSort _ _, ?_, ?_⟩
  · intro m hm
    simp only [analyzeError, List.mem_insertionSort, List.mem_filterMap] at hm
    obtain ⟨sig, _, hf⟩ := hm
    unfold scoreSignature at hf
    by_cases hc : (matchedKeywordsOf sig message stackTrace codeContext).isEmpty
        && (matchedCluesOf sig codeContext fileName).isEmpty
    · rw [if_pos hc] at hf
      cases hf
    · rw [if_neg hc, Option.some_inj] at hf
      subst hf
      exact ⟨le_min (by norm_num) (Nat.cast_nonneg _), min_le_left _ _⟩
  · intro h
    have hnil : (catalog.filterMap fun sig =>
        scoreSignature sig message stackTrace codeContext fileName) = [] := by
      rw [List.filterMap_eq_nil_iff]
      intro sig hsig
      obtain ⟨h1, h2⟩ := h sig hsig
      simp [scoreSignature, h1, h2]
    rw [analyzeError, hnil]
    rfl

/-- C8 witness: on a concrete hydration error the single produced match has a
confidence inside `[0, 100]`, and on inputs matching nothing the result is
empty. -/
theorem analyzeError_sorted_bounded_witness :
    (0 ≤ sampleMatch.confidence ∧ sampleMatch.confidence ≤ 100)
      ∧ analyzeError sampleCatalog "x" "y" "z" "w" = [] :=
  ⟨(analyzeError_sorted_bounded sampleCatalog "hydration failed" "" "Math.random()"
      "app.tsx").2.1 sampleMatch (List.mem_insertionSort _ |>.mpr (List.mem_singleton.mpr rfl)),
   (analyzeError_sorted_bounded sampleCatalog "x" "y" "z" "w").2.2 (by decide)⟩

/-- C9: `testRandomValueConsistency` is a fixed-outcome diagnostic — whatever
the two random draws are, the result has `passed = false` and the fixed
recommendation advising static initial values with client-side state
management. -/
theorem testRandomValueConsistency_always_fails (serverRandom clientRandom : ℚ) :
    (testRandomValueConsistency serverRandom clientRandom).passed = false
      ∧ (testRandomValueConsistency serverRandom clientRandom).recommendation
          = "Use static initial values with client-side state management" :=
  ⟨rfl, rfl⟩

theorem applyFeedback_bounds (e : TeamKnowledgeEntry) (helpful : Bool)
    (comment : Option String) (h0 : 0 ≤ e.effectiveness) (h1 : e.effectiveness ≤ 100) :
    0 ≤ (applyFeedback e helpful comment).effectiveness
      ∧ (applyFeedback e helpful comment).effectiveness ≤ 100 := by
  unfold applyFeedback
  cases helpful <;> cases comment <;> simp <;> omega

theorem recordFeedback_bounds (tk : List TeamKnowledgeEntry) (entryId : String)
    (helpful : Bool) (comment : Option String)
    (h : ∀ e ∈ tk, 0 ≤ e.effectiveness ∧ e.effectiveness ≤ 100) :
    ∀ e ∈ recordTeamKnowledgeFeedback tk entryId helpful comment,
      0 ≤ e.effectiveness ∧ e.effectiveness ≤ 100 := by
  induction tk with
  | nil => simp [recordTeamKnowledgeFeedback]
  | cons a rest ih =>
    intro e he
    rw [recordTeamKnowledgeFeedback] at he
    by_cases hid : a.id = entryId
    · rw [if_pos hid] at he
      rcases List.mem_cons.mp he with h1 | h2
      · subst h1
        exact applyFeedback_bounds a helpful comment
          (h a (List.mem_cons_self a rest)).1 (h a (List.mem_cons_self a rest)).2
      · exact h e (List.mem_cons_of_mem a h2)
    · rw [if_neg hid] at he
      rcases List.mem_cons.mp he with h1 | h2
      · subst h1
        exact h e (List.mem_cons_self e rest)
      · exact ih (fun x hx => h x (List.mem_cons_of_mem a hx)) e h2

theorem foldl_teamOps_bounds (ops : List TeamOp) (tk : List TeamKnowledgeEntry)
    (h : ∀ e ∈ tk, 0 ≤ e.effectiveness ∧ e.effectiveness ≤ 100) :
    ∀ e ∈ ops.foldl applyTeamOp tk, 0 ≤ e.effectiveness ∧ e.effectiveness ≤ 100 := by
  induction ops generalizing tk with
  | nil => simpa using h
  | cons op rest ih =>
    intro e he
    rw [List.foldl_cons] at he
    refine ih (applyTeamOp tk op) ?_ e he
    intro x hx
    cases op with
    | share fid now entry =>
      simp only [applyTeamOp, shareWithTeam] at hx
      rcases List.mem_append.mp hx with hx1 | hx2
      · exact h x hx1
      · rw [List.mem_singleton] at hx2
        subst hx2
        norm_num
    | feedback entryId helpful comment =>
      exact recordFeedback_bounds tk entryId helpful comment h x hx

/-- C6: under every sequence of `shareWithTeam` / `recordTeamKnowledgeFeedback`
calls starting from the process-start (empty) list, every entry's
effectiveness stays within `[0, 100]`; and a shared entry starts at 85. -/
theorem teamKnowledge_effectiveness_bounds :
    (∀ ops : List TeamOp, ∀ e ∈ runTeamOps ops,
        0 ≤ e.effectiveness ∧ e.effectiveness ≤ 100)
      ∧ ∀ (tk : List TeamKnowledgeEntry) (freshId : String) (now : ℚ)
          (entry : ShareRequest),
          ∃ e, shareWithTeam tk freshId now entry = tk ++ [e] ∧ e.effectiveness = 85 := by
  constructor
  · intro ops
    exact foldl_teamOps_bounds ops [] (by simp)
  · intro tk freshId now entry
    exact ⟨_, rfl, rfl⟩

/-- C6 witness: after sharing an entry and recording one unhelpful feedback,
the concrete entry (effectiveness `max 0 (85 - 5) = 80`) is within bounds. -/
theorem teamKnowledge_effectiveness_bounds_witness :
    0 ≤ entryC6.effectiveness ∧ entryC6.effectiveness ≤ 100 :=
  teamKnowledge_effectiveness_bounds.1 opsC6 entryC6
    (List.mem_singleton.mpr rfl)

theorem initStep_preserves_initialized (s : InitState) (e : InitEvent)
    (h : s.isInitialized = true) : (initStep s e).isInitialized = true := by
  cases e with
  | call freshId => simp [initStep, ensureDatabaseInitialized, h]
  | complete success =>
    cases success <;> simp [initStep, completeAttempt, h]

theorem foldl_initStep_preserves_initialized (events : List InitEvent) (s : InitState)
    (h : s.isInitialized = true) : (events.foldl initStep s).isInitialized = true := by
  induction events generalizing s with
  | nil => simpa using h
  | cons e rest ih =>
    rw [List.foldl_cons]
    exact ih (initStep s e) (initStep_preserves_initialized s e h)

/-- C3: the single-flight guard of `ensureDatabaseInitialized`.  (1) once an
attempt has succeeded, `isInitialized` stays true across every later event
and every later call returns immediately without touching the guard; (2)
while an attempt is in flight every caller awaits that same attempt, leaving
the state unchanged; (3) a failed attempt resets the pending promise to
`null`; and (4) after a failure a call starts a fresh attempt. -/
theorem ensureDatabaseInitialized_single_flight :
    (∀ (s : InitState) (events : List InitEvent) (freshId : ℕ),
        s.isInitialized = true →
          (events.foldl initStep s).isInitialized = true
            ∧ ensureDatabaseInitialized (events.foldl initStep s) freshId
                = (InitCallResult.returnsImmediately, events.foldl initStep s))
      ∧ (∀ (s : InitState) (id freshId : ℕ),
          s.isInitialized = false → s.initializationPromise = some id →
            ensureDatabaseInitialized s freshId = (InitCallResult.awaitsAttempt id, s))
      ∧ (∀ s : InitState, (completeAttempt s false).initializationPromise = none)
      ∧ (∀ (s : InitState) (freshId : ℕ),
          s.isInitialized = false →
            ensureDatabaseInitialized (completeAttempt s false) freshId
              = (InitCallResult.startsAttempt freshId,
                 { isInitialized := false, initializationPromise := some freshId })) := by
  refine ⟨?_, ?_, ?_, ?_⟩
  · intro s events freshId h
    have hinit := foldl_initStep_preserves_initialized events s h
    exact ⟨hinit, by simp [ensureDatabaseInitialized, hinit]⟩
  · intro s id freshId h hp
    simp [ensureDatabaseInitialized, h, hp]
  · intro s
    simp [completeAttempt]
  · intro s freshId h
    simp [ensureDatabaseInitialized, completeAttempt, h]

/-- C3 witness: concrete runs — after a successful attempt a later call
returns immediately; a call during an in-flight attempt awaits it; after a
failed attempt the guard is clear and a call starts a fresh attempt. -/
theorem ensureDatabaseInitialized_single_flight_witness :
    (([InitEvent.complete true, InitEvent.call 7].foldl initStep
          { isInitialized := true, initializationPromise := some 0 }).isInitialized = true
        ∧ ensureDatabaseInitialized
            ([InitEvent.complete true, InitEvent.call 7].foldl initStep
              { isInitialized := true, initializationPromise := some 0 }) 9
          = (InitCallResult.returnsImmediately,
             [InitEvent.complete true, InitEvent.call 7].foldl initStep
               { isInitialized := true, initializationPromise := some 0 }))
      ∧ ensureDatabaseInitialized { isInitialized := false, initializationPromise := some 3 } 9
          = (InitCallResult.awaitsAttempt 3,
             { isInitialized := false, initializationPromise := some 3 })
      ∧ (completeAttempt { isInitialized := false, initializationPromise := some 3 } false
          ).initializationPromise = none
      ∧ ensureDatabaseInitialized
          (completeAttempt { isInitialized := false, initializationPromise := some 3 } false) 9
          = (InitCallResult.startsAttempt 9,
             { isInitialized := false, initializationPromise := some 9 }) :=
  ⟨ensureDatabaseInitialized_single_flight.1
      { isInitialized := true, initializationPromise := some 0 }
      [InitEvent.complete true, InitEvent.call 7] 9 rfl,
   ensureDatabaseInitialized_single_flight.2.1
      { isInitialized := false, initializationPromise := some 3 } 3 9 rfl rfl,
   ensureDatabaseInitialized_single_flight.2.2.1
      { isInitialized := false, initializationPromise := some 3 },
   ensureDatabaseInitialized_single_flight.2.2.2
      { isInitialized := false, initializationPromise := some 3 } 9 rfl⟩

/-- C10: full characterization of `getUser` — it is a total function (never
throws), and it returns a user row exactly when initialization succeeded, the
session cookie is present and non-empty, the token verifies to a payload with
a numeric user id, the session is not expired, the query succeeds, and the
queried row (matching id, not soft-deleted) exists; in every other case it
returns `none`. -/
theorem getUser_characterization (initResult : Except String Unit)
    (sessionCookie : Option String) (verify : String → Option SessionData)
    (now : ℚ) (dbOk : Bool) (table : List DbUser) (u : DbUser) :
    getUser initResult sessionCookie verify now dbOk table = some u ↔
      initResult = Except.ok ()
        ∧ ∃ v, sessionCookie = some v ∧ v ≠ ""
        ∧ ∃ sessionData su uid, verify v = some sessionData
            ∧ sessionData.user = some su ∧ su.id = some uid
            ∧ ¬ sessionData.expires < now
            ∧ dbOk = true
            ∧ (table.filter fun r =>
                decide (r.id = uid) && decide (r.deletedAt = none)).head? = some u := by
  cases initResult with
  | error e => simp [getUser]
  | ok u0 =>
    cases u0
    cases sessionCookie with
    | none => simp [getUser]
    | some v =>
      by_cases hv : v = ""
      · simp [getUser, hv]
      · cases hver : verify v with
        | none => simp [getUser, hv, hver]
        | some sessionData =>
          cases hu : sessionData.user with
          | none => simp [getUser, hv, hver, hu]
          | some su =>
            cases hid : su.id with
            | none => simp [getUser, hv, hver, hu, hid]
            | some uid =>
              by_cases hexp : sessionData.expires < now
              · simp [getUser, hv, hver, hu, hid, hexp]
              · cases dbOk with
                | false => simp [getUser, hv, hver, hu, hid, hexp]
                | true =>
                  cases hrow : (table.filter fun r =>
                      decide (r.id = uid) && decide (r.deletedAt = none)).head? with
                  | none =>
                    rw [List.filter_head?] at hrow
                    simp [getUser, hv, hver, hu, hid, hexp, hrow]
                  | some row =>
                    rw [List.filter_head?] at hrow
                    have hexp2 : now ≤ sessionData.expires := not_lt.mp hexp
                    simp [getUser, hv, hver, hu, hid, hexp, hrow, hexp2]

/-- C10 witness: on a concrete fully-valid state `getUser` returns the user
row (all characterizing checks discharged at `now = 5 < expires = 10`). -/
theorem getUser_characterization_witness :
    getUser (Except.ok ()) (some "token") verifyC10 5 true [userC10] = some userC10 :=
  (getUser_characterization (Except.ok ()) (some "token") verifyC10 5 true [userC10]
      userC10).mpr
    ⟨rfl, "token", rfl, by decide,
      { user := some { id := some 1 }, expires := 10 }, { id := some 1 }, 1,
      rfl, rfl, rfl, by norm_num, rfl, rfl⟩

theorem completeSession_marks (st : MetricsState) (sessionId : String) (success : Bool) :
    ∀ r ∈ (completeSession st sessionId success).sessions,
      r.id = sessionId → r.completed = true ∧ r.success = success := by
  intro r hr hid
  simp only [completeSession, List.mem_map] at hr
  obtain ⟨r0, hr0, hmap⟩ := hr
  by_cases h0 : r0.id = sessionId
  · rw [if_pos h0] at hmap
    subst hmap
    exact ⟨rfl, rfl⟩
  · rw [if_neg h0] at hmap
    subst hmap
    exact absurd hid h0

/-- C2: whenever any phase of the `try` body throws, `runCompleteWorkflow`
still returns a structured result (the embedding is a total function — the
exception never escapes) with `success = false`, zero-valued metrics, the
fixed safe recommendation set, and — when metrics are enabled — every metrics
session record with this id marked complete and failed. -/
theorem runCompleteWorkflow_failure_handling (staticCfg wfCfg : BugXWorkflowConfig)
    (o : WorkflowOracles) (developer : String) (errorDetails : ErrorDetails)
    (sessionId freshTeamId : String) (startTime endTime : ℚ)
    (st : MetricsState) (tk : List TeamKnowledgeEntry) (err : String)
    (h : workflowBody staticCfg wfCfg o developer errorDetails sessionId freshTeamId
        startTime endTime
        (if staticCfg.metricsEnabled then startSession st sessionId else st) tk
      = Except.error err) :
    (runCompleteWorkflow staticCfg wfCfg o developer errorDetails sessionId freshTeamId
        startTime endTime st tk).result.success = false
      ∧ (runCompleteWorkflow staticCfg wfCfg o developer errorDetails sessionId freshTeamId
          startTime endTime st tk).result.metrics
        = { efficiency := 0, qualityScore := 0, teamImpact := 0 }
      ∧ (runCompleteWorkflow staticCfg wfCfg o developer errorDetails sessionId freshTeamId
          startTime endTime st tk).result.recommendations
        = ["Retry with manual debugging approach", "Check system configuration"]
      ∧ (staticCfg.metricsEnabled = true →
          ∀ r ∈ (runCompleteWorkflow staticCfg wfCfg o developer errorDetails sessionId
              freshTeamId startTime endTime st tk).metricsState.sessions,
            r.id = sessionId → r.completed = true ∧ r.success = false) := by
  simp only [runCompleteWorkflow, h]
  refine ⟨trivial, trivial, trivial, ?_⟩
  intro hm r hr hid
  simp only [hm, if_true] at hr
  exact completeSession_marks _ sessionId false r hr hid

/-- C2 witness: a concrete crashing pattern-recognition phase under the
default configuration yields the structured failure result and the failed
session record. -/
theorem runCompleteWorkflow_failure_handling_witness :
    (runCompleteWorkflow DEFAULT_CONFIG DEFAULT_CONFIG failingOracles "dev"
        sampleErrorDetails "s1" "t1" 0 60000 emptyMetrics []).result.success = false
      ∧ (runCompleteWorkflow DEFAULT_CONFIG DEFAULT_CONFIG failingOracles "dev"
          sampleErrorDetails "s1" "t1" 0 60000 emptyMetrics []).result.metrics
        = { efficiency := 0, qualityScore := 0, teamImpact := 0 }
      ∧ (runCompleteWorkflow DEFAULT_CONFIG DEFAULT_CONFIG failingOracles "dev"
          sampleErrorDetails "s1" "t1" 0 60000 emptyMetrics []).result.recommendations
        = ["Retry with manual debugging approach", "Check system configuration"]
      ∧ (DEFAULT_CONFIG.metricsEnabled = true →
          ∀ r ∈ (runCompleteWorkflow DEFAULT_CONFIG DEFAULT_CONFIG failingOracles "dev"
              sampleErrorDetails "s1" "t1" 0 60000 emptyMetrics []).metricsState.sessions,
            r.id = "s1" → r.completed = true ∧ r.success = false) :=
  runCompleteWorkflow_failure_handling DEFAULT_CONFIG DEFAULT_CONFIG failingOracles "dev"
    sampleErrorDetails "s1" "t1" 0 60000 emptyMetrics [] "pattern engine crashed" rfl

/-- C7: when every phase succeeds, the team-notification step runs exactly
when `teamIntegration.notifyOnCritical` is set and the detected anti-pattern
list (empty when pattern recognition is disabled) contains a critical entry —
and skipping it is not a failure: the workflow still succeeds. -/
theorem teamNotification_iff_critical (staticCfg wfCfg : BugXWorkflowConfig)
    (o : WorkflowOracles) (developer : String) (errorDetails : ErrorDetails)
    (sessionId freshTeamId : String) (startTime endTime : ℚ)
    (st : MetricsState) (tk : List TeamKnowledgeEntry)
    (pm : List PatternMatch) (ap : List AntiPattern) (ctx : ContextAnalysisResult)
    (k : ℕ) (impl : List String × List String)
    (h1 : o.analyzeErrorO = Except.ok pm)
    (h2 : o.detectAntiPatternsO = Except.ok ap)
    (h3 : o.contextO = Except.ok ctx)
    (h4 : o.promptsO = Except.ok k)
    (h5 : o.implO = Except.ok impl) :
    (runCompleteWorkflow staticCfg wfCfg o developer errorDetails sessionId freshTeamId
        startTime endTime st tk).notifiedTeam
      = (wfCfg.teamIntegration.notifyOnCritical
          && ((if wfCfg.patternRecognitionEnabled then ap else []).any
              fun a => decide (a.severity = Severity.critical)))
      ∧ (runCompleteWorkflow staticCfg wfCfg o developer errorDetails sessionId freshTeamId
          startTime endTime st tk).result.success = true := by
  cases hpr : wfCfg.patternRecognitionEnabled <;> cases hai : wfCfg.aiAssisted <;>
    simp [runCompleteWorkflow, workflowBody, h1, h2, h3, h4, h5, hpr, hai]

/-- C7 witness: under the default configuration with one detected critical
anti-pattern, the notification step runs and the workflow succeeds. -/
theorem teamNotification_iff_critical_witness :
    (runCompleteWorkflow DEFAULT_CONFIG DEFAULT_CONFIG okOracles "dev" sampleErrorDetails
        "s1" "t1" 0 60000 emptyMetrics []).notifiedTeam
      = (DEFAULT_CONFIG.teamIntegration.notifyOnCritical
          && ((if DEFAULT_CONFIG.patternRecognitionEnabled then [criticalAntiPattern] else []).any
              fun a => decide (a.severity = Severity.critical)))
      ∧ (runCompleteWorkflow DEFAULT_CONFIG DEFAULT_CONFIG okOracles "dev" sampleErrorDetails
          "s1" "t1" 0 60000 emptyMetrics []).result.success = true :=
  teamNotification_iff_critical DEFAULT_CONFIG DEFAULT_CONFIG okOracles "dev"
    sampleErrorDetails "s1" "t1" 0 60000 emptyMetrics [] [] [criticalAntiPattern]
    ctxSample 0 ([], []) rfl rfl rfl rfl rfl

/-- C4: an error type with no registered template makes `getTemplate` fail
with the NotFound condition, and the orchestrator does not propagate that
failure: with all other phases succeeding the workflow completes with
`success = true` and no applied template (the generic path). -/
theorem getTemplate_notFound_generic_path (errorType : String)
    (hlook : PATTERN_TEMPLATES.lookup errorType = none)
    (staticCfg wfCfg : BugXWorkflowConfig) (o : WorkflowOracles)
    (developer : String) (errorDetails : ErrorDetails)
    (sessionId freshTeamId : String) (startTime endTime : ℚ)
    (st : MetricsState) (tk : List TeamKnowledgeEntry)
    (pm : List PatternMatch) (ap : List AntiPattern) (ctx : ContextAnalysisResult)
    (k : ℕ) (impl : List String × List String)
    (h1 : o.analyzeErrorO = Except.ok pm)
    (h2 : o.detectAntiPatternsO = Except.ok ap)
    (h3 : o.contextO = Except.ok ctx)
    (h4 : o.promptsO = Except.ok k)
    (h5 : o.implO = Except.ok impl)
    (h6 : o.getTemplateO = getTemplate)
    (het : inferErrorType errorDetails.message
        (if wfCfg.patternRecognitionEnabled then pm else []) = errorType) :
    getTemplate errorType = Except.error (TemplateError.notFound errorType)
      ∧ (runCompleteWorkflow staticCfg wfCfg o developer errorDetails sessionId freshTeamId
          startTime endTime st tk).result.success = true
      ∧ (runCompleteWorkflow staticCfg wfCfg o developer errorDetails sessionId freshTeamId
          startTime endTime st tk).result.appliedTemplate = none := by
  have hgt : getTemplate errorType = Except.error (TemplateError.notFound errorType) := by
    unfold getTemplate
    rw [hlook]
  refine ⟨hgt, ?_⟩
  cases hpr : wfCfg.patternRecognitionEnabled <;> cases hai : wfCfg.aiAssisted <;>
    simp_all [runCompleteWorkflow, workflowBody]

/-- C4 witness: message `"boom"` infers the unregistered `generic_error`
type; `getTemplate` fails NotFound, yet the default-configuration workflow
succeeds with no applied template. -/
theorem getTemplate_notFound_generic_path_witness :
    getTemplate "generic_error" = Except.error (TemplateError.notFound "generic_error")
      ∧ (runCompleteWorkflow DEFAULT_CONFIG DEFAULT_CONFIG okOracles "dev" sampleErrorDetails
          "s1" "t1" 0 60000 emptyMetrics []).result.success = true
      ∧ (runCompleteWorkflow DEFAULT_CONFIG DEFAULT_CONFIG okOracles "dev" sampleErrorDetails
          "s1" "t1" 0 60000 emptyMetrics []).result.appliedTemplate = none :=
  getTemplate_notFound_generic_path "generic_error" rfl DEFAULT_CONFIG DEFAULT_CONFIG
    okOracles "dev" sampleErrorDetails "s1" "t1" 0 60000 emptyMetrics []
    [] [criticalAntiPattern] ctxSample 0 ([], []) rfl rfl rfl rfl rfl rfl (by decide)
